import Mathlib

/-!
Shallow embedding of the brybell-techhub microservices (order service,
user service, search service) and proofs about the claims of the
specification.  Python floats are modelled as rationals, datetimes as
integer instants, the per-service relational store as a list of rows,
and an HTTP error response as a (status code, detail) pair.
-/

/-- An HTTPException as raised by the handlers: status code and detail. -/
structure HTTPError where
  status : Nat
  detail : String
  deriving Repr, DecidableEq

namespace OrderSvc

/-- A row of the order_items table (order_service/main.py, OrderItem). -/
structure OrderItem where
  product_id : Int
  product_name : String
  quantity : Int
  price : ℚ
  deriving Repr, DecidableEq

/-- A row of the orders table (order_service/main.py, Order).  The
columns the lifecycle endpoints read or write; timestamps are integer
instants. -/
structure Order where
  id : Int
  user_id : Int
  total_amount : ℚ
  status : String
  payment_status : String
  shipping_address : String
  phone_number : String
  tracking_number : String
  items : List OrderItem
  updated_at : Int
  deriving Repr, DecidableEq

/-- Item of the OrderCreate request body (OrderItemCreate schema). -/
structure OrderItemCreate where
  product_id : Int
  product_name : String
  quantity : Int
  price : ℚ
  deriving Repr, DecidableEq

/-- The OrderCreate request body.  It has no status and no
payment_status field. -/
structure OrderCreate where
  user_id : Int
  items : List OrderItemCreate
  shipping_address : String
  phone_number : String
  deriving Repr, DecidableEq

/-- The orders store: the list of rows of the orders table. -/
abbrev OrderDb := List Order

/-- Mirrors db.query(Order).filter(Order.id == order_id).first(). -/
def findOrder (db : OrderDb) (order_id : Int) : Option Order :=
  db.find? (fun o => o.id == order_id)

/-- Commit a modified row back: every row with the given id is replaced. -/
def setOrder (db : OrderDb) (order_id : Int) (o : Order) : OrderDb :=
  db.map (fun x => if x.id == order_id then o else x)

/-- Mirrors generate_tracking_number(): "BRY" followed by the first 12
characters of uuid4().hex, upper-cased.  The 32-character lowercase hex
string of the freshly drawn uuid4 is the explicit random input. -/
def generate_tracking_number (uuidHex : String) : String :=
  "BRY" ++ (uuidHex.take 12).toUpper

/-- Mirrors calculate_total(items): sum(item.price * item.quantity). -/
def calculate_total (items : List OrderItemCreate) : ℚ :=
  (items.map (fun item => item.price * (item.quantity : ℚ))).sum

/-- Mirrors create_order(order_data): computes the total, inserts one order row
with status "pending" and payment_status "pending" and a generated
tracking number, then one order_items row per request item.  The fresh
primary key, the uuid hex driving the tracking number and the clock are
explicit inputs.  Returns the new store and the created row. -/
def create_order (db : OrderDb) (order_data : OrderCreate)
    (newId : Int) (uuidHex : String) (now : Int) : OrderDb × Order :=
  let total_amount := calculate_total order_data.items
  let db_order : Order :=
    { id := newId
      user_id := order_data.user_id
      total_amount := total_amount
      shipping_address := order_data.shipping_address
      phone_number := order_data.phone_number
      tracking_number := generate_tracking_number uuidHex
      status := "pending"
      payment_status := "pending"
      items := order_data.items.map (fun item =>
        { product_id := item.product_id
          product_name := item.product_name
          quantity := item.quantity
          price := item.price })
      updated_at := now }
  (db ++ [db_order], db_order)

/-- Mirrors update_order_status(order_id, status_update): 404 if the id is
unknown, otherwise the supplied status string is stored unconditionally
(no transition validation). -/
def update_order_status (db : OrderDb) (order_id : Int)
    (status : String) (now : Int) : Except HTTPError OrderDb :=
  match findOrder db order_id with
  | none => .error ⟨404, "Order not found"⟩
  | some order =>
      .ok (setOrder db order_id { order with status := status, updated_at := now })

/-- Mirrors update_payment_status(order_id, payment_status): 404 if the id is
unknown; stores the payment status and, when it is "paid" and the order
status was "pending", auto-advances the status to "processing". -/
def update_payment_status (db : OrderDb) (order_id : Int)
    (payment_status : String) (now : Int) : Except HTTPError OrderDb :=
  match findOrder db order_id with
  | none => .error ⟨404, "Order not found"⟩
  | some order =>
      let order1 := { order with payment_status := payment_status }
      let order2 :=
        if payment_status == "paid" && order.status == "pending" then
          { order1 with status := "processing" }
        else order1
      .ok (setOrder db order_id { order2 with updated_at := now })

/-- Mirrors cancel_order(order_id): 404 if the id is unknown; 400 unless the
current status is "pending" or "processing"; otherwise the status
becomes "cancelled". -/
def cancel_order (db : OrderDb) (order_id : Int) (now : Int) :
    Except HTTPError OrderDb :=
  match findOrder db order_id with
  | none => .error ⟨404, "Order not found"⟩
  | some order =>
      if !(["pending", "processing"].contains order.status) then
        .error ⟨400, "Cannot cancel order in current status"⟩
      else
        .ok (setOrder db order_id { order with status := "cancelled", updated_at := now })

/-- A lifecycle operation on an existing order, as the claims range over
them: set the status, set the payment status, or cancel. -/
inductive LifecycleOp where
  | updateStatus (status : String)
  | updatePaymentStatus (payment_status : String)
  | cancel
  deriving Repr, DecidableEq

/-- Apply one lifecycle operation to the store; a raised HTTPException
commits nothing, so the store is unchanged on error. -/
def applyOp (db : OrderDb) (order_id : Int) (op : LifecycleOp) (now : Int) : OrderDb :=
  match op with
  | .updateStatus s =>
      match update_order_status db order_id s now with
      | .ok db2 => db2
      | .error _ => db
  | .updatePaymentStatus p =>
      match update_payment_status db order_id p now with
      | .ok db2 => db2
      | .error _ => db
  | .cancel =>
      match cancel_order db order_id now with
      | .ok db2 => db2
      | .error _ => db

end OrderSvc

namespace UserSvc

/-- The SECRET_KEY configured in user_service/main.py (default value of
the environment variable). -/
def SECRET_KEY : String := "your-secret-key-change-in-production"

/-- The configured ACCESS_TOKEN_EXPIRE_MINUTES = 15. -/
def ACCESS_TOKEN_EXPIRE_MINUTES : Int := 15

/-- The configured REFRESH_TOKEN_EXPIRE_DAYS = 7. -/
def REFRESH_TOKEN_EXPIRE_DAYS : Int := 7

/-- A row of the users table (user_service/main.py, User). -/
structure User where
  id : Int
  email : String
  phone : String
  password_hash : String
  first_name : String
  last_name : String
  role : String
  deriving Repr, DecidableEq

/-- The users store. -/
abbrev UserDb := List User

/-- A decoded JWT: the claim set the service puts into its tokens
(user_id and role from the data dict, plus exp and type), together with
the key it was signed with.  jwt.encode records the signing key;
jwt.decode checks it against SECRET_KEY. -/
structure Token where
  user_id : Option Int
  role : Option String
  exp : Int
  typ : String
  signing_key : String
  deriving Repr, DecidableEq

/-- The claim set jwt.decode returns on success. -/
structure Claims where
  user_id : Option Int
  role : Option String
  exp : Int
  typ : String
  deriving Repr, DecidableEq

/-- The payload dicts the service passes to the token constructors hold
a user_id and, for access tokens, a role. -/
structure TokenData where
  user_id : Int
  role : Option String
  deriving Repr, DecidableEq

/-- Mirrors create_access_token(data): expiry now + 15 minutes, type
"access", signed with SECRET_KEY.  Instants are in seconds. -/
def create_access_token (data : TokenData) (now : Int) : Token :=
  { user_id := some data.user_id
    role := data.role
    exp := now + ACCESS_TOKEN_EXPIRE_MINUTES * 60
    typ := "access"
    signing_key := SECRET_KEY }

/-- Mirrors create_refresh_token(data): expiry now + 7 days, type
"refresh", signed with SECRET_KEY. -/
def create_refresh_token (data : TokenData) (now : Int) : Token :=
  { user_id := some data.user_id
    role := data.role
    exp := now + REFRESH_TOKEN_EXPIRE_DAYS * 86400
    typ := "refresh"
    signing_key := SECRET_KEY }

/-- Mirrors verify_token(token): jwt.decode with SECRET_KEY.  A token signed
with a different key raises JWTError (401 "Invalid token"); a token
whose expiry instant is not in the future raises ExpiredSignatureError
(401 "Token has expired"); otherwise the claim set is returned. -/
def verify_token (token : Token) (now : Int) : Except HTTPError Claims :=
  if token.signing_key ≠ SECRET_KEY then
    .error ⟨401, "Invalid token"⟩
  else if token.exp ≤ now then
    .error ⟨401, "Token has expired"⟩
  else
    .ok { user_id := token.user_id, role := token.role, exp := token.exp, typ := token.typ }

/-- The token-verification part of get_current_user: verify_token
followed by the check that the "type" claim is "access" (401 "Invalid
token type" otherwise).  This is VerifyAccessToken of the spec. -/
def verify_access_token (token : Token) (now : Int) : Except HTTPError Claims :=
  match verify_token token now with
  | .error e => .error e
  | .ok payload =>
      if payload.typ ≠ "access" then
        .error ⟨401, "Invalid token type"⟩
      else
        .ok payload

/-- The UserRegister request body. -/
structure UserRegister where
  email : String
  phone : String
  password : String
  first_name : String
  last_name : String
  deriving Repr, DecidableEq

/-- The UserLogin request body. -/
structure UserLogin where
  email : String
  password : String
  deriving Repr, DecidableEq

/-- The TokenResponse body: a token pair plus the user row. -/
structure TokenResponse where
  access_token : Token
  refresh_token : Token
  token_type : String
  user : User
  deriving Repr, DecidableEq

/-- Mirrors register(user_data): if a row with the same email or the same phone
exists, 400 "User already exists" and the store is untouched; otherwise
one row is inserted (password hashed by the external bcrypt context,
passed in as hash_password) and a token pair is issued.  Returns the
new store with the response. -/
def register (hash_password : String → String) (db : UserDb)
    (user_data : UserRegister) (newId : Int) (now : Int) :
    Except HTTPError (UserDb × TokenResponse) :=
  match db.find? (fun u => u.email == user_data.email || u.phone == user_data.phone) with
  | some _ => .error ⟨400, "User already exists"⟩
  | none =>
      let db_user : User :=
        { id := newId
          email := user_data.email
          phone := user_data.phone
          password_hash := hash_password user_data.password
          first_name := user_data.first_name
          last_name := user_data.last_name
          role := "customer" }
      let access_token := create_access_token ⟨db_user.id, some db_user.role⟩ now
      let refresh_token := create_refresh_token ⟨db_user.id, none⟩ now
      .ok (db ++ [db_user],
        { access_token := access_token
          refresh_token := refresh_token
          token_type := "bearer"
          user := db_user })

/-- Mirrors login(credentials): look the user up by email; if there is none, or
the password does not verify against the stored hash (verify_password
is the external bcrypt check), 401 "Invalid credentials"; otherwise a
token pair is issued. -/
def login (verify_password : String → String → Bool) (db : UserDb)
    (credentials : UserLogin) (now : Int) : Except HTTPError TokenResponse :=
  match db.find? (fun u => u.email == credentials.email) with
  | none => .error ⟨401, "Invalid credentials"⟩
  | some user =>
      if !(verify_password credentials.password user.password_hash) then
        .error ⟨401, "Invalid credentials"⟩
      else
        .ok { access_token := create_access_token ⟨user.id, some user.role⟩ now
              refresh_token := create_refresh_token ⟨user.id, none⟩ now
              token_type := "bearer"
              user := user }

end UserSvc

namespace SearchSvc

/-- One entry of the filter_queries list built by search_products:
either a term filter or the price range filter (gte and lte keys
present as built). -/
inductive Filter where
  | term (field : String) (value : String)
  | range (field : String) (gte : Option ℚ) (lte : Option ℚ)
  deriving Repr, DecidableEq

/-- Python truthiness of an Optional[float]: None and 0 are falsy. -/
def truthyQ : Option ℚ → Bool
  | none => false
  | some v => v != 0

/-- Python truthiness of an Optional[str]: None and "" are falsy. -/
def truthyS : Option String → Bool
  | none => false
  | some s => s ≠ ""

/-- The filter_queries list of search_products: a term filter per
truthy category and brand, and one price range filter when min_price
or max_price is truthy, holding exactly the truthy bounds. -/
def build_filter_queries (category brand : Option String)
    (min_price max_price : Option ℚ) : List Filter :=
  (if truthyS category then [Filter.term "category" (category.getD "")] else [])
  ++ (if truthyS brand then [Filter.term "brand" (brand.getD "")] else [])
  ++ (if truthyQ min_price || truthyQ max_price then
        [Filter.range "price"
          (if truthyQ min_price then min_price else none)
          (if truthyQ max_price then max_price else none)]
      else [])

/-- The search body search_products sends to the index: the multi_match
text, the filters, and pagination.  The sort clauses are fixed. -/
structure SearchBody where
  q : String
  filter : List Filter
  skip : Int
  size : Int
  deriving Repr, DecidableEq

/-- search_products builds its query from the parameters alone. -/
def build_search_body (q : String) (category brand : Option String)
    (min_price max_price : Option ℚ) (skip limit : Int) : SearchBody :=
  { q := q
    filter := build_filter_queries category brand min_price max_price
    skip := skip
    size := limit }

end SearchSvc

namespace OrderSvc

/-- Observation helper: the stored status of the given order after a
handler call, none when the handler raised or the order is absent. -/
def statusAfter (r : Except HTTPError OrderDb) (order_id : Int) : Option String :=
  match r with
  | .error _ => none
  | .ok db => (findOrder db order_id).map Order.status

/-- Observation helper: the stored payment status of the given order
after a handler call. -/
def paymentStatusAfter (r : Except HTTPError OrderDb) (order_id : Int) : Option String :=
  match r with
  | .error _ => none
  | .ok db => (findOrder db order_id).map Order.payment_status

/-- The row a lifecycle operation leaves behind for an order it found:
the status update stores the supplied string, the payment update stores
the payment status and possibly auto-advances, and cancel either
cancels or (on the 400) leaves the row as it was. -/
def applyOpRow (o : Order) (op : LifecycleOp) (now : Int) : Order :=
  match op with
  | .updateStatus s => { o with status := s, updated_at := now }
  | .updatePaymentStatus p =>
      if p == "paid" && o.status == "pending" then
        { o with payment_status := p, status := "processing", updated_at := now }
      else { o with payment_status := p, updated_at := now }
  | .cancel =>
      if ["pending", "processing"].contains o.status then
        { o with status := "cancelled", updated_at := now }
      else o

/-- A concrete pending order used to instantiate the general theorems. -/
def oPending : Order :=
  { id := 1, user_id := 7, total_amount := 30, status := "pending"
    payment_status := "pending", shipping_address := "addr", phone_number := "000"
    tracking_number := "BRYAAAAAAAAAAAA", items := [], updated_at := 0 }

/-- A concrete processing order. -/
def oProcessing : Order := { oPending with status := "processing" }

/-- A concrete completed order. -/
def oCompleted : Order := { oPending with status := "completed" }

end OrderSvc

namespace UserSvc

/-- A concrete user row used to instantiate the general theorems. -/
def uAlice : User :=
  { id := 1, email := "alice@example.com", phone := "111"
    password_hash := "h1", first_name := "A", last_name := "L", role := "customer" }

/-- A concrete access token issued at instant 0 (expires at 900). -/
def tokAccess : Token := create_access_token ⟨1, some "customer"⟩ 0

/-- A concrete refresh token issued at instant 0. -/
def tokRefresh : Token := create_refresh_token ⟨1, none⟩ 0

/-- The concrete access token re-signed with the wrong key. -/
def tokBadKey : Token := { tokAccess with signing_key := "other" }

end UserSvc

open OrderSvc UserSvc SearchSvc

/-- A found order carries the id it was looked up by. -/
theorem findOrder_id {db : OrderDb} {order_id : Int} {o : Order}
    (h : findOrder db order_id = some o) : o.id = order_id := by
  have h' : db.find? (fun o => o.id == order_id) = some o := h
  simpa using List.find?_some h'

/-- Committing a modified row with the same id makes it the row the
next lookup returns. -/
theorem findOrder_setOrder {db : OrderDb} {order_id : Int} {o : Order}
    (h : findOrder db order_id = some o) (r : Order) (h2 : r.id = order_id) :
    findOrder (setOrder db order_id r) order_id = some r := by
  have hid : o.id = order_id := findOrder_id h
  have h' : db.find? (fun o => o.id == order_id) = some o := h
  show (db.map fun x => if x.id == order_id then r else x).find? (fun y => y.id == order_id)
      = some r
  rw [List.find?_map]
  have hpred : ((fun y : Order => y.id == order_id) ∘ fun x => if x.id == order_id then r else x)
      = fun x : Order => x.id == order_id := by
    funext x
    by_cases hx : x.id = order_id <;> simp [Function.comp, hx, h2]
  rw [hpred, h']
  simp [hid]

/-- Applying a lifecycle operation to an order the store holds leaves
exactly the row applyOpRow describes. -/
theorem applyOp_found_eq {db : OrderDb} {order_id now : Int} {op : LifecycleOp} {o : Order}
    (h : findOrder db order_id = some o) :
    findOrder (applyOp db order_id op now) order_id = some (applyOpRow o op now) := by
  have hid := findOrder_id h
  cases op with
  | updateStatus s =>
      have hset := findOrder_setOrder h { o with status := s, updated_at := now } hid
      simp [applyOp, update_order_status, h, applyOpRow, hset]
  | updatePaymentStatus p =>
      by_cases hc : (p == "paid" && (o.status == "pending")) = true
      · have hset := findOrder_setOrder h
          { o with payment_status := p, status := "processing", updated_at := now } hid
        simp [applyOp, update_payment_status, h, applyOpRow, hc, hset]
      · have hset := findOrder_setOrder h
          { o with payment_status := p, updated_at := now } hid
        simp [applyOp, update_payment_status, h, applyOpRow, hc, hset]
  | cancel =>
      rcases eq_or_ne o.status "pending" with h1 | h1
      · have hset := findOrder_setOrder h { o with status := "cancelled", updated_at := now } hid
        simp [applyOp, cancel_order, h, applyOpRow, h1, hset]
      · rcases eq_or_ne o.status "processing" with h2 | h2
        · have hset := findOrder_setOrder h { o with status := "cancelled", updated_at := now } hid
          simp [applyOp, cancel_order, h, applyOpRow, h2, hset]
        · simp [applyOp, cancel_order, h, applyOpRow, h1, h2]

/-- C1: for every existing order, update_payment_status(id, "paid")
sets payment_status to "paid"; when the status was "pending" the status
auto-advances to "processing", and when it was "processing" it is left
unchanged. -/
theorem C1_update_payment_paid (db : OrderDb) (order_id now : Int) (o : Order)
    (h : findOrder db order_id = some o) :
    paymentStatusAfter (update_payment_status db order_id "paid" now) order_id = some "paid" ∧
    (o.status = "pending" →
      statusAfter (update_payment_status db order_id "paid" now) order_id = some "processing") ∧
    (o.status = "processing" →
      statusAfter (update_payment_status db order_id "paid" now) order_id = some o.status) := by
  have hid : o.id = order_id := findOrder_id h
  by_cases hp : o.status = "pending"
  · have hset := findOrder_setOrder h
      { o with payment_status := "paid", status := "processing", updated_at := now } hid
    simp [update_payment_status, h, hp, statusAfter, paymentStatusAfter, hset]
  · have hp' : (o.status == "pending") = false := by simpa using hp
    have hset := findOrder_setOrder h
      { o with payment_status := "paid", updated_at := now } hid
    simp [update_payment_status, h, hp, hp', statusAfter, paymentStatusAfter, hset]

/-- C1 witness: the two concrete instances, a pending and a processing
order, both paid. -/
theorem C1_update_payment_paid_witness :
    paymentStatusAfter (update_payment_status [oPending] 1 "paid" 5) 1 = some "paid" ∧
    statusAfter (update_payment_status [oPending] 1 "paid" 5) 1 = some "processing" ∧
    statusAfter (update_payment_status [oProcessing] 1 "paid" 5) 1 = some oProcessing.status :=
  have h1 := C1_update_payment_paid [oPending] 1 5 oPending (by decide)
  have h2 := C1_update_payment_paid [oProcessing] 1 5 oProcessing (by decide)
  ⟨h1.1, h1.2.1 rfl, h2.2.2 rfl⟩

/-- C2 counterexample: update_order_status stores any supplied status
string, so the status of a completed order moves backward to "pending"
when UpdateStatus(id, "pending") is applied. -/
theorem C2_backward_counterexample :
    (findOrder [oCompleted] 1).map Order.status = some "completed" ∧
    (findOrder (applyOp [oCompleted] 1 (LifecycleOp.updateStatus "pending") 5) 1).map
      Order.status = some "pending" := by decide

/-- C2 amended: for sequences built only from UpdatePaymentStatus and
CancelOrder every step of the status is forward (stays, pending to
processing, or pending/processing to cancelled); UpdateStatus performs
no transition validation, so the original claim fails for it. -/
theorem C2_forward_only_without_update_status (db : OrderDb) (order_id now : Int)
    (op : LifecycleOp) (hop : ∀ s, op ≠ LifecycleOp.updateStatus s)
    (o o' : Order) (h : findOrder db order_id = some o)
    (h' : findOrder (applyOp db order_id op now) order_id = some o') :
    o'.status = o.status ∨
    (o.status = "pending" ∧ o'.status = "processing") ∨
    ((o.status = "pending" ∨ o.status = "processing") ∧ o'.status = "cancelled") := by
  rw [applyOp_found_eq h, Option.some_inj] at h'
  subst h'
  cases op with
  | updateStatus s => exact absurd rfl (hop s)
  | updatePaymentStatus p =>
      by_cases hc : (p == "paid" && (o.status == "pending")) = true
      · have hps : o.status = "pending" := by
          have := (Bool.and_eq_true _ _).mp hc
          simpa using this.2
        refine Or.inr (Or.inl ⟨hps, ?_⟩)
        simp [applyOpRow, hc]
      · exact Or.inl (by simp [applyOpRow, hc])
  | cancel =>
      rcases eq_or_ne o.status "pending" with h1 | h1
      · refine Or.inr (Or.inr ⟨Or.inl h1, ?_⟩)
        simp [applyOpRow, h1]
      · rcases eq_or_ne o.status "processing" with h2 | h2
        · refine Or.inr (Or.inr ⟨Or.inr h2, ?_⟩)
          simp [applyOpRow, h2]
        · exact Or.inl (by simp [applyOpRow, h1, h2])

/-- C2 witness: cancelling the concrete pending order is a forward
step. -/
theorem C2_forward_only_witness :
    ({ oPending with status := "cancelled", updated_at := 5 } : Order).status = oPending.status ∨
    (oPending.status = "pending" ∧
      ({ oPending with status := "cancelled", updated_at := 5 } : Order).status = "processing") ∨
    ((oPending.status = "pending" ∨ oPending.status = "processing") ∧
      ({ oPending with status := "cancelled", updated_at := 5 } : Order).status = "cancelled") :=
  C2_forward_only_without_update_status [oPending] 1 5 .cancel
    (fun _ heq => LifecycleOp.noConfusion heq) oPending
    { oPending with status := "cancelled", updated_at := 5 } (by decide) (by decide)

/-- C3: the created order's total_amount is the sum over the items of
price times quantity, the example items give 25.5, and no lifecycle
operation recomputes or changes a stored total_amount. -/
theorem C3_total_correct_and_stable :
    (∀ (db : OrderDb) (data : OrderCreate) (newId : Int) (uuidHex : String) (now : Int),
      (create_order db data newId uuidHex now).2.total_amount = calculate_total data.items) ∧
    calculate_total [⟨1, "a", 2, 10⟩, ⟨2, "b", 1, 11/2⟩] = 51/2 ∧
    (∀ (db : OrderDb) (order_id : Int) (op : LifecycleOp) (now : Int) (o o' : Order),
      findOrder db order_id = some o →
      findOrder (applyOp db order_id op now) order_id = some o' →
      o'.total_amount = o.total_amount) := by
  refine ⟨fun _ _ _ _ _ => rfl, by norm_num [calculate_total], ?_⟩
  intro db order_id op now o o' h h'
  rw [applyOp_found_eq h, Option.some_inj] at h'
  subst h'
  cases op with
  | updateStatus s => rfl
  | updatePaymentStatus p =>
      by_cases hc : (p == "paid" && (o.status == "pending")) = true <;> simp [applyOpRow, hc]
  | cancel =>
      rcases eq_or_ne o.status "pending" with h1 | h1
      · simp [applyOpRow, h1]
      · rcases eq_or_ne o.status "processing" with h2 | h2
        · simp [applyOpRow, h2]
        · simp [applyOpRow, h1, h2]

/-- C3 witness: the concrete order of the spec's example totals 25.5,
and cancelling the concrete pending order keeps its total. -/
theorem C3_total_witness :
    (create_order [] ⟨7, [⟨1, "a", 2, 10⟩, ⟨2, "b", 1, 11/2⟩], "addr", "000"⟩ 1 "cafe" 0).2.total_amount
      = calculate_total [⟨1, "a", 2, 10⟩, ⟨2, "b", 1, 11/2⟩] ∧
    calculate_total [⟨1, "a", 2, 10⟩, ⟨2, "b", 1, 11/2⟩] = 51/2 ∧
    ({ oPending with status := "cancelled", updated_at := 5 } : Order).total_amount
      = oPending.total_amount :=
  have hC := C3_total_correct_and_stable
  ⟨hC.1 [] ⟨7, [⟨1, "a", 2, 10⟩, ⟨2, "b", 1, 11/2⟩], "addr", "000"⟩ 1 "cafe" 0,
   hC.2.1,
   hC.2.2 [oPending] 1 .cancel 5 oPending
     { oPending with status := "cancelled", updated_at := 5 } (by decide) (by decide)⟩

/-- C4: cancel_order is 404 on a missing order; on an existing order it
cancels exactly from "pending" or "processing", and from "completed" or
"cancelled" it raises the 400 and commits nothing. -/
theorem C4_cancel_order (db : OrderDb) (order_id now : Int) :
    (findOrder db order_id = none →
      cancel_order db order_id now = .error ⟨404, "Order not found"⟩) ∧
    (∀ o : Order, findOrder db order_id = some o →
      o.status = "pending" ∨ o.status = "processing" →
      statusAfter (cancel_order db order_id now) order_id = some "cancelled") ∧
    (∀ o : Order, findOrder db order_id = some o →
      o.status = "completed" ∨ o.status = "cancelled" →
      cancel_order db order_id now = .error ⟨400, "Cannot cancel order in current status"⟩ ∧
      applyOp db order_id .cancel now = db) := by
  refine ⟨?_, ?_, ?_⟩
  · intro h
    simp [cancel_order, h]
  · intro o h hs
    have hid := findOrder_id h
    have hset := findOrder_setOrder h { o with status := "cancelled", updated_at := now } hid
    rcases hs with h1 | h1 <;> simp [cancel_order, statusAfter, h, h1, hset]
  · intro o h hs
    rcases hs with h1 | h1 <;>
      exact ⟨by simp [cancel_order, h, h1], by simp [applyOp, cancel_order, h, h1]⟩

/-- C4 witness: concrete 404, a concrete successful cancel from
pending, and a concrete 400 on a completed order. -/
theorem C4_cancel_order_witness :
    cancel_order [] 1 5 = .error ⟨404, "Order not found"⟩ ∧
    statusAfter (cancel_order [oPending] 1 5) 1 = some "cancelled" ∧
    (cancel_order [oCompleted] 1 5 = .error ⟨400, "Cannot cancel order in current status"⟩ ∧
     applyOp [oCompleted] 1 .cancel 5 = [oCompleted]) :=
  ⟨(C4_cancel_order [] 1 5).1 rfl,
   (C4_cancel_order [oPending] 1 5).2.1 oPending (by decide) (Or.inl rfl),
   (C4_cancel_order [oCompleted] 1 5).2.2 oCompleted (by decide) (Or.inl rfl)⟩

/-- C5: register returns the 400 conflict error whenever the email or
the phone is already registered to an existing user and then inserts no
row; otherwise it appends exactly one user row and returns it with a
token pair. -/
theorem C5_register_conflict (hp : String → String) (db : UserDb)
    (data : UserRegister) (newId now : Int) :
    ((∃ u ∈ db, u.email = data.email ∨ u.phone = data.phone) →
      register hp db data newId now = .error ⟨400, "User already exists"⟩) ∧
    ((∀ u ∈ db, u.email ≠ data.email ∧ u.phone ≠ data.phone) →
      ∀ db2 resp, register hp db data newId now = .ok (db2, resp) →
        db2 = db ++ [resp.user] ∧ resp.user.email = data.email ∧
        resp.user.phone = data.phone ∧ resp.token_type = "bearer" ∧
        resp.access_token.typ = "access" ∧ resp.refresh_token.typ = "refresh") ∧
    ((∀ u ∈ db, u.email ≠ data.email ∧ u.phone ≠ data.phone) →
      (register hp db data newId now).toOption.isSome = true) := by
  cases hfind : db.find? (fun u => u.email == data.email || u.phone == data.phone) with
  | some u =>
      have hmem : u ∈ db := List.mem_of_find?_eq_some hfind
      have hpu : u.email = data.email ∨ u.phone = data.phone := by
        have := List.find?_some hfind
        simpa using this
      refine ⟨fun _ => ?_, fun hno => absurd (hno u hmem) ?_, fun hno => absurd (hno u hmem) ?_⟩
      · simp [register, hfind]
      · rcases hpu with h1 | h1 <;> simp [h1]
      · rcases hpu with h1 | h1 <;> simp [h1]
  | none =>
      refine ⟨?_, ?_, ?_⟩
      · rintro ⟨u, hu, hor⟩
        exfalso
        have := List.find?_eq_none.mp hfind u hu
        rcases hor with h1 | h1 <;> simp [h1] at this
      · intro _ db2 resp heq
        simp only [register, hfind] at heq
        rw [Except.ok.injEq, Prod.mk.injEq] at heq
        obtain ⟨hdb, hresp⟩ := heq
        subst hdb
        subst hresp
        exact ⟨rfl, rfl, rfl, rfl, rfl, rfl⟩
      · intro _
        simp [register, hfind, Except.toOption]

/-- C5 witness: registering the already-registered email is the
conflict error; registering on an empty store succeeds. -/
theorem C5_register_conflict_witness :
    register (fun s => s) [uAlice] ⟨"alice@example.com", "222", "pw", "B", "C"⟩ 2 0
      = .error ⟨400, "User already exists"⟩ ∧
    (register (fun s => s) [] ⟨"bob@example.com", "333", "pw", "B", "C"⟩ 1 0).toOption.isSome
      = true :=
  ⟨(C5_register_conflict (fun s => s) [uAlice] ⟨"alice@example.com", "222", "pw", "B", "C"⟩ 2 0).1
      ⟨uAlice, by decide, Or.inl rfl⟩,
   (C5_register_conflict (fun s => s) [] ⟨"bob@example.com", "333", "pw", "B", "C"⟩ 1 0).2.2
      (by intro u hu; cases hu)⟩

/-- C6: a login whose email matches no user and a login with an
existing email whose password hash does not verify return the same 401
response with the same error content. -/
theorem C6_login_indistinguishable (vp : String → String → Bool) (db : UserDb)
    (c1 c2 : UserLogin) (now1 now2 : Int)
    (h1 : ∀ u ∈ db, u.email ≠ c1.email)
    (u : User) (h2 : db.find? (fun x => x.email == c2.email) = some u)
    (h3 : vp c2.password u.password_hash = false) :
    login vp db c1 now1 = .error ⟨401, "Invalid credentials"⟩ ∧
    login vp db c2 now2 = .error ⟨401, "Invalid credentials"⟩ ∧
    login vp db c1 now1 = login vp db c2 now2 := by
  have hf : db.find? (fun x => x.email == c1.email) = none := by
    apply List.find?_eq_none.mpr
    intro x hx
    simpa using h1 x hx
  refine ⟨?_, ?_, ?_⟩
  · simp [login, hf]
  · simp [login, h2, h3]
  · simp [login, hf, h2, h3]

/-- C6 witness: the two concrete logins, unknown email and wrong
password, produce identical 401 errors. -/
theorem C6_login_indistinguishable_witness :
    login (fun _ _ => false) [uAlice] ⟨"nobody@example.com", "pw"⟩ 0
      = .error ⟨401, "Invalid credentials"⟩ ∧
    login (fun _ _ => false) [uAlice] ⟨"alice@example.com", "wrong"⟩ 0
      = .error ⟨401, "Invalid credentials"⟩ ∧
    login (fun _ _ => false) [uAlice] ⟨"nobody@example.com", "pw"⟩ 0
      = login (fun _ _ => false) [uAlice] ⟨"alice@example.com", "wrong"⟩ 0 :=
  C6_login_indistinguishable (fun _ _ => false) [uAlice] ⟨"nobody@example.com", "pw"⟩
    ⟨"alice@example.com", "wrong"⟩ 0 0 (by decide) uAlice (by decide) rfl

/-- C7: verify_access_token answers 401 for a token signed with the
wrong key, for a token whose expiry instant is not in the future, and
for an unexpired well-signed token whose type claim is not "access"
(hence for every refresh token); it returns the claim set exactly for a
correctly signed, unexpired access-type token. -/
theorem C7_verify_access_token (tok : Token) (now : Int) :
    (tok.signing_key ≠ SECRET_KEY →
      verify_access_token tok now = .error ⟨401, "Invalid token"⟩) ∧
    (tok.signing_key = SECRET_KEY → tok.exp ≤ now →
      verify_access_token tok now = .error ⟨401, "Token has expired"⟩) ∧
    (tok.signing_key = SECRET_KEY → now < tok.exp → tok.typ ≠ "access" →
      verify_access_token tok now = .error ⟨401, "Invalid token type"⟩) ∧
    (verify_access_token tok now = .ok ⟨tok.user_id, tok.role, tok.exp, tok.typ⟩ ↔
      tok.signing_key = SECRET_KEY ∧ now < tok.exp ∧ tok.typ = "access") := by
  refine ⟨?_, ?_, ?_, ?_⟩
  · intro h
    simp [verify_access_token, verify_token, h]
  · intro h h2
    simp [verify_access_token, verify_token, h, h2]
  · intro h h2 h3
    simp [verify_access_token, verify_token, h, not_le.mpr h2, h3]
  · constructor
    · intro heq
      by_cases k1 : tok.signing_key = SECRET_KEY
      · by_cases k2 : tok.exp ≤ now
        · simp [verify_access_token, verify_token, k1, k2] at heq
        · by_cases k3 : tok.typ = "access"
          · exact ⟨k1, not_le.mp k2, k3⟩
          · simp [verify_access_token, verify_token, k1, k2, k3] at heq
      · simp [verify_access_token, verify_token, k1] at heq
    · rintro ⟨k1, k2, k3⟩
      simp [verify_access_token, verify_token, k1, not_le.mpr k2, k3]

/-- C7 witness: a wrong-key token, the access token after its expiry,
and a refresh token are all rejected, and the fresh access token
verifies to its claim set. -/
theorem C7_verify_access_token_witness :
    verify_access_token tokBadKey 0 = .error ⟨401, "Invalid token"⟩ ∧
    verify_access_token tokAccess 1000 = .error ⟨401, "Token has expired"⟩ ∧
    verify_access_token tokRefresh 0 = .error ⟨401, "Invalid token type"⟩ ∧
    verify_access_token tokAccess 0 = .ok ⟨tokAccess.user_id, tokAccess.role,
      tokAccess.exp, tokAccess.typ⟩ :=
  ⟨(C7_verify_access_token tokBadKey 0).1 (by decide),
   (C7_verify_access_token tokAccess 1000).2.1 rfl (by decide),
   (C7_verify_access_token tokRefresh 0).2.2.1 rfl (by decide) (by decide),
   (C7_verify_access_token tokAccess 0).2.2.2.mpr ⟨rfl, by decide, rfl⟩⟩

/-- C8 counterexample: two distinct 32-character uuid hex strings that
agree on their first 12 characters yield the same tracking number, so
the tracking number reflects at most 48 of the 128 random bits the
claim asks for. -/
theorem C8_tracking_counterexample :
    generate_tracking_number "00000000000000000000000000000000"
      = generate_tracking_number "00000000000000000000000000000001" ∧
    "00000000000000000000000000000000" ≠ "00000000000000000000000000000001" :=
  ⟨rfl, by decide⟩

/-- C8 amended: every tracking number is the fixed three-letter
marker "BRY" followed by the upper-cased first 12 hex characters of
the uuid, and two uuids collide exactly when those 12 characters (48
bits) agree up to case, not 128 or more bits. -/
theorem C8_tracking_structure (h1 h2 : String) :
    (generate_tracking_number h1).take 3 = "BRY" ∧
    generate_tracking_number h1 = "BRY" ++ (h1.take 12).toUpper ∧
    (generate_tracking_number h1 = generate_tracking_number h2 ↔
      (h1.take 12).toUpper = (h2.take 12).toUpper) := by
  refine ⟨?_, rfl, ?_⟩
  · apply String.ext
    simp [generate_tracking_number, String.data_take, String.data_append]
  · constructor
    · intro h
      have hd := congrArg String.data h
      simp only [generate_tracking_number, String.data_append] at hd
      exact String.ext (List.append_cancel_left hd)
    · intro h
      simp [generate_tracking_number, h]

/-- C9: every order create_order returns has status "pending" and
payment_status "pending"; the OrderCreate body carries no status
field, so the caller cannot choose them. -/
theorem C9_create_order_initial (db : OrderDb) (data : OrderCreate)
    (newId : Int) (uuidHex : String) (now : Int) :
    (create_order db data newId uuidHex now).2.status = "pending" ∧
    (create_order db data newId uuidHex now).2.payment_status = "pending" :=
  ⟨rfl, rfl⟩

/-- C10: a min_price of 0 (and likewise a max_price of 0) is falsy in
the query construction, so the zero bound is dropped and the search
body is the one built with the parameter omitted. -/
theorem C10_zero_price_bound (q : String) (category brand : Option String)
    (other : Option ℚ) (skip limit : Int) :
    build_search_body q category brand (some 0) other skip limit
      = build_search_body q category brand none other skip limit ∧
    build_search_body q category brand other (some 0) skip limit
      = build_search_body q category brand other none skip limit := by
  constructor <;> simp [build_search_body, build_filter_queries, truthyQ]

/-- C8 witness: the structure theorem instantiated at a concrete uuid
hex string. -/
theorem C8_tracking_structure_witness :
    (generate_tracking_number "00000000000000000000000000000000").take 3 = "BRY" ∧
    generate_tracking_number "00000000000000000000000000000000"
      = "BRY" ++ (("00000000000000000000000000000000" : String).take 12).toUpper :=
  have h := C8_tracking_structure "00000000000000000000000000000000"
    "00000000000000000000000000000001"
  ⟨h.1, h.2.1⟩
